import Mathlib

/-!
Shallow embedding of `folium_vector_icon.py` and verification of its
specification.  Python floats are modelled by real numbers; `math.ceil`
and `math.floor` become `Int.ceil` / `Int.floor`; the icon constructor
`VectorIcon.__init__` is modelled as a pure function `buildIcon`
producing the data handed to the host icon class (path coordinates,
group transform, view box, style values, icon size and icon anchor).
-/

noncomputable section

namespace FoliumVectorIcon

/-- Embeds `_BBox(x0, y0, x, y)`: `x`/`y` are the width/height extents. -/
structure BBox where
  x0 : ℝ
  y0 : ℝ
  x : ℝ
  y : ℝ

/-- Embeds the frozen dataclass `_MetrixHandler(length, angle, margin)`. -/
structure MetrixHandler where
  length : ℝ
  angle : ℝ
  margin : ℝ

/-- Embeds the cached property `_MetrixHandler.cos`. -/
def MetrixHandler.cos (h : MetrixHandler) : ℝ := Real.cos h.angle

/-- Embeds the cached property `_MetrixHandler.sin`. -/
def MetrixHandler.sin (h : MetrixHandler) : ℝ := Real.sin h.angle

/-- Embeds the cached property `_MetrixHandler.x = length * cos`. -/
def MetrixHandler.x (h : MetrixHandler) : ℝ := h.length * h.cos

/-- Embeds the cached property `_MetrixHandler.y = length * sin`. -/
def MetrixHandler.y (h : MetrixHandler) : ℝ := h.length * h.sin

/-- Embeds `_MetrixHandler.bbox`: the two sequential `if 0 <= self.x` /
`if 0 <= self.y` blocks of the source are expanded into their four
combined branches; in each branch the far edge is `ceil` (offset `≥ 0`)
or `floor` (offset `< 0`), the near edge is `-margin` or
`far - margin`, and the extent is `abs(far) + 2 * margin`. -/
def MetrixHandler.bbox (h : MetrixHandler) : BBox :=
  if 0 ≤ h.x then
    if 0 ≤ h.y then
      ⟨-h.margin, -h.margin,
        |((⌈h.x⌉ : ℤ) : ℝ)| + 2 * h.margin, |((⌈h.y⌉ : ℤ) : ℝ)| + 2 * h.margin⟩
    else
      ⟨-h.margin, ((⌊h.y⌋ : ℤ) : ℝ) - h.margin,
        |((⌈h.x⌉ : ℤ) : ℝ)| + 2 * h.margin, |((⌊h.y⌋ : ℤ) : ℝ)| + 2 * h.margin⟩
  else
    if 0 ≤ h.y then
      ⟨((⌊h.x⌋ : ℤ) : ℝ) - h.margin, -h.margin,
        |((⌊h.x⌋ : ℤ) : ℝ)| + 2 * h.margin, |((⌈h.y⌉ : ℤ) : ℝ)| + 2 * h.margin⟩
    else
      ⟨((⌊h.x⌋ : ℤ) : ℝ) - h.margin, ((⌊h.y⌋ : ℤ) : ℝ) - h.margin,
        |((⌊h.x⌋ : ℤ) : ℝ)| + 2 * h.margin, |((⌊h.y⌋ : ℤ) : ℝ)| + 2 * h.margin⟩

/-- Embeds `_MetrixHandler.size() = (abs(bbox.x), abs(bbox.y))`. -/
def MetrixHandler.size (h : MetrixHandler) : ℝ × ℝ :=
  (|h.bbox.x|, |h.bbox.y|)

/-- Embeds `_MetrixHandler.anchor`: the source compares the argument
against `"head"` and `"mid"` and otherwise falls through to the tail
branch `return abs(bbox.x0), abs(bbox.y0)`. -/
def MetrixHandler.anchor (h : MetrixHandler) (a : String) : ℝ × ℝ :=
  if a = "head" then
    (|h.bbox.x0| + h.x, |h.bbox.y0| + h.y)
  else if a = "mid" then
    (|h.bbox.x0| + h.x / 2, |h.bbox.y0| + h.y / 2)
  else
    (|h.bbox.x0|, |h.bbox.y0|)

/-- Embeds `_MetrixHandler.rotate(x, y) = (cos*x - sin*y, sin*x + cos*y)`. -/
def MetrixHandler.rotate (h : MetrixHandler) (px py : ℝ) : ℝ × ℝ :=
  (h.cos * px - h.sin * py, h.sin * px + h.cos * py)

/-- Embeds the dataclass `VectorIconHead(width, length)`. -/
structure VectorIconHead where
  width : ℝ
  length : ℝ

/-- Embeds the dataclass `VectorIconBody(width)`. -/
structure VectorIconBody where
  width : ℝ

/-- Embeds `DEFAULT_HEAD = VectorIconHead()`, i.e. width 8 and length 10. -/
def DEFAULT_HEAD : VectorIconHead := ⟨8, 10⟩

/-- Embeds `DEFAULT_BODY = VectorIconBody()`, i.e. width 2. -/
def DEFAULT_BODY : VectorIconBody := ⟨2⟩

/-- Embeds lines 160-164 of `VectorIcon.__init__`: the internal angle is
`angle - pi/2` and the handler margin is
`max(head.length, head.width, body.width)`. -/
def iconHandler (length angle : ℝ) (head : VectorIconHead) (body : VectorIconBody) :
    MetrixHandler :=
  ⟨length, angle - Real.pi / 2, max head.length (max head.width body.width)⟩

/-- Embeds the seven `handler.rotate(...)` calls of lines 180-196 of
`VectorIcon.__init__`, in source order: the coordinate pairs written into
the path's move command and its six relative line commands. -/
def vectorPathPoints (length : ℝ) (head : VectorIconHead) (body : VectorIconBody)
    (handler : MetrixHandler) : List (ℝ × ℝ) :=
  [ handler.rotate 0 (-body.width / 2),
    handler.rotate 0 body.width,
    handler.rotate (max (length - head.length) 0) 0,
    handler.rotate 0 ((head.width - body.width) / 2),
    handler.rotate head.length (-head.width / 2),
    handler.rotate (-head.length) (-head.width / 2),
    handler.rotate 0 ((head.width - body.width) / 2) ]

/-- The arrow template as written in the spec: the seven relative deltas,
before any rotation is applied. -/
def templateDeltas (length : ℝ) (head : VectorIconHead) (body : VectorIconBody) :
    List (ℝ × ℝ) :=
  [ (0, -body.width / 2),
    (0, body.width),
    (max (length - head.length) 0, 0),
    (0, (head.width - body.width) / 2),
    (head.length, -head.width / 2),
    (-head.length, -head.width / 2),
    (0, (head.width - body.width) / 2) ]

/-- The transform attribute the builder puts on the `<g>` element:
nothing in the `head.length < length` branch, otherwise a uniform
`scale(length / head.length)`. -/
inductive SvgTransform where
  | identity : SvgTransform
  | scale : ℝ → SvgTransform

/-- Embeds lines 198-206 of `VectorIcon.__init__` together with the
`scale=length / head.length` formatting argument of line 222. -/
def groupTransform (length : ℝ) (head : VectorIconHead) : SvgTransform :=
  if head.length < length then SvgTransform.identity
  else SvgTransform.scale (length / head.length)

/-- The data `VectorIcon.__init__` hands to the host `folium.DivIcon`:
a model of the markup string (path coordinates, group transform, view
box and style values) plus icon size, icon anchor, popup anchor and
class name. -/
structure IconData where
  path : List (ℝ × ℝ)
  transform : SvgTransform
  viewBox : BBox
  fill : String
  stroke : String
  strokeWidth : ℝ
  iconSize : ℝ × ℝ
  iconAnchor : ℝ × ℝ
  popupAnchor : Option (ℤ × ℤ)
  className : String

/-- Embeds `VectorIcon.__init__`: builds the metrics handler from the
adjusted angle, the rotated path points, the group transform branch, the
view box `bbox`, the stroke colour defaulting (`border_color if not None
else color`), and the layout values `size()` and `anchor(anchor)`. -/
def buildIcon (length angle : ℝ) (head : VectorIconHead) (body : VectorIconBody)
    (color : String) (borderWidth : ℝ) (borderColor : Option String)
    (anchor : String) (popupAnchor : Option (ℤ × ℤ)) (className : String) :
    IconData :=
  let handler := iconHandler length angle head body
  ⟨ vectorPathPoints length head body handler,
    groupTransform length head,
    handler.bbox,
    color,
    borderColor.getD color,
    borderWidth,
    handler.size,
    handler.anchor anchor,
    popupAnchor,
    className ⟩

/-- Embeds `math.hypot(x, y)`. -/
def hypot (x y : ℝ) : ℝ := Real.sqrt (x ^ 2 + y ^ 2)

/-- Embeds `math.atan2(y, x)` as the argument of the complex number
`x + y*i`. -/
def atan2 (y x : ℝ) : ℝ := Complex.arg ⟨x, y⟩

/-- Embeds `VectorIcon.from_comp`: the length is
`hypot(components[1], components[0])`, the angle is
`atan2(components[1], components[0])`, and everything else is passed to
the primary constructor unchanged. -/
def from_comp (components : ℝ × ℝ) (head : VectorIconHead) (body : VectorIconBody)
    (color : String) (borderWidth : ℝ) (borderColor : Option String)
    (anchor : String) (popupAnchor : Option (ℤ × ℤ)) (className : String) :
    IconData :=
  buildIcon (hypot components.2 components.1) (atan2 components.2 components.1)
    head body color borderWidth borderColor anchor popupAnchor className

/-- The bounding-box specification of the claim: the per-axis far/near
formulas, the `≥ 2 * margin` extents, the margin-before-tail /
margin-beyond-tip span, and containment of the tip offset. -/
def bboxClaim (h : MetrixHandler) : Prop :=
  h.x = h.length * Real.cos h.angle ∧
  h.y = h.length * Real.sin h.angle ∧
  (0 ≤ h.x → h.bbox.x0 = -h.margin ∧ h.bbox.x = |((⌈h.x⌉ : ℤ) : ℝ)| + 2 * h.margin) ∧
  (h.x < 0 → h.bbox.x0 = ((⌊h.x⌋ : ℤ) : ℝ) - h.margin ∧
    h.bbox.x = |((⌊h.x⌋ : ℤ) : ℝ)| + 2 * h.margin) ∧
  (0 ≤ h.y → h.bbox.y0 = -h.margin ∧ h.bbox.y = |((⌈h.y⌉ : ℤ) : ℝ)| + 2 * h.margin) ∧
  (h.y < 0 → h.bbox.y0 = ((⌊h.y⌋ : ℤ) : ℝ) - h.margin ∧
    h.bbox.y = |((⌊h.y⌋ : ℤ) : ℝ)| + 2 * h.margin) ∧
  2 * h.margin ≤ h.bbox.x ∧ 2 * h.margin ≤ h.bbox.y ∧
  h.bbox.x0 ≤ min 0 h.x - h.margin ∧ max 0 h.x + h.margin ≤ h.bbox.x0 + h.bbox.x ∧
  h.bbox.y0 ≤ min 0 h.y - h.margin ∧ max 0 h.y + h.margin ≤ h.bbox.y0 + h.bbox.y ∧
  h.bbox.x0 ≤ h.x ∧ h.x ≤ h.bbox.x0 + h.bbox.x ∧
  h.bbox.y0 ≤ h.y ∧ h.y ≤ h.bbox.y0 + h.bbox.y

/-- The anchor algebra of the claim: tail is `(abs x0, abs y0)`, head is
tail offset by `(x, y)`, mid is tail offset by `(x/2, y/2)` and is the
arithmetic midpoint of tail and head. -/
def anchorClaim (h : MetrixHandler) : Prop :=
  h.anchor "tail" = (|h.bbox.x0|, |h.bbox.y0|) ∧
  h.anchor "head" = ((h.anchor "tail").1 + h.x, (h.anchor "tail").2 + h.y) ∧
  h.anchor "mid" = ((h.anchor "tail").1 + h.x / 2, (h.anchor "tail").2 + h.y / 2) ∧
  (h.anchor "mid").1 = ((h.anchor "tail").1 + (h.anchor "head").1) / 2 ∧
  (h.anchor "mid").2 = ((h.anchor "tail").2 + (h.anchor "head").2) / 2

/-- The containment property of the claim: the anchor point lies in
`[0, width] × [0, height]` of the same handler's bounding box. -/
def anchorInBox (h : MetrixHandler) (a : String) : Prop :=
  0 ≤ (h.anchor a).1 ∧ (h.anchor a).1 ≤ h.bbox.x ∧
  0 ≤ (h.anchor a).2 ∧ (h.anchor a).2 ≤ h.bbox.y

/-- Per-axis facts about the far edge `f` and near edge `n` chosen by
`bbox` for an offset `v` and margin `m ≥ 0`: the offset is inside
`[n, n + extent]`, the extent dominates `2 * m`, the box spans from `m`
before the origin to `m` beyond the offset, and `|n|`, `|n| + v`,
`|n| + v/2` all lie inside `[0, extent]`. -/
lemma axis_bounds (v m : ℝ) (f : ℤ) (n : ℝ) (hm : 0 ≤ m)
    (hc : (0 ≤ v ∧ f = ⌈v⌉ ∧ n = -m) ∨ (v < 0 ∧ f = ⌊v⌋ ∧ n = (f : ℝ) - m)) :
    n ≤ v ∧ v ≤ n + (|(f : ℝ)| + 2 * m) ∧
    2 * m ≤ |(f : ℝ)| + 2 * m ∧
    n ≤ min 0 v - m ∧ max 0 v + m ≤ n + (|(f : ℝ)| + 2 * m) ∧
    0 ≤ |n| ∧ |n| ≤ |(f : ℝ)| + 2 * m ∧
    0 ≤ |n| + v ∧ |n| + v ≤ |(f : ℝ)| + 2 * m ∧
    0 ≤ |n| + v / 2 ∧ |n| + v / 2 ≤ |(f : ℝ)| + 2 * m := by
  rcases hc with ⟨hv, hf, hn⟩ | ⟨hv, hf, hn⟩
  · subst hf
    subst hn
    have h1 : v ≤ ((⌈v⌉ : ℤ) : ℝ) := Int.le_ceil v
    have h2 : (0 : ℤ) ≤ ⌈v⌉ := Int.ceil_nonneg hv
    have h3 : (0 : ℝ) ≤ ((⌈v⌉ : ℤ) : ℝ) := by exact_mod_cast h2
    rw [abs_of_nonneg h3, abs_of_nonpos (by linarith : -m ≤ 0),
      min_eq_left hv, max_eq_right hv]
    refine ⟨?_, ?_, ?_, ?_, ?_, ?_, ?_, ?_, ?_, ?_, ?_⟩ <;> linarith
  · subst hf
    subst hn
    have h1 : ((⌊v⌋ : ℤ) : ℝ) ≤ v := Int.floor_le v
    have h2 : ⌊v⌋ ≤ (0 : ℤ) := Int.floor_nonpos hv.le
    have h3 : ((⌊v⌋ : ℤ) : ℝ) ≤ 0 := by exact_mod_cast h2
    rw [abs_of_nonpos h3, abs_of_nonpos (by linarith : ((⌊v⌋ : ℤ) : ℝ) - m ≤ 0),
      min_eq_right hv.le, max_eq_left hv.le]
    refine ⟨?_, ?_, ?_, ?_, ?_, ?_, ?_, ?_, ?_, ?_, ?_⟩ <;> linarith

/-- The `axis_bounds` facts instantiated at the x axis of `bbox`. -/
lemma bbox_x_facts (h : MetrixHandler) (hm : 0 ≤ h.margin) :
    h.bbox.x0 ≤ h.x ∧ h.x ≤ h.bbox.x0 + h.bbox.x ∧
    2 * h.margin ≤ h.bbox.x ∧
    h.bbox.x0 ≤ min 0 h.x - h.margin ∧
    max 0 h.x + h.margin ≤ h.bbox.x0 + h.bbox.x ∧
    0 ≤ |h.bbox.x0| ∧ |h.bbox.x0| ≤ h.bbox.x ∧
    0 ≤ |h.bbox.x0| + h.x ∧ |h.bbox.x0| + h.x ≤ h.bbox.x ∧
    0 ≤ |h.bbox.x0| + h.x / 2 ∧ |h.bbox.x0| + h.x / 2 ≤ h.bbox.x := by
  unfold MetrixHandler.bbox
  split_ifs with hx hy hy
  · exact axis_bounds h.x h.margin ⌈h.x⌉ (-h.margin) hm (Or.inl ⟨hx, rfl, rfl⟩)
  · exact axis_bounds h.x h.margin ⌈h.x⌉ (-h.margin) hm (Or.inl ⟨hx, rfl, rfl⟩)
  · exact axis_bounds h.x h.margin ⌊h.x⌋ (((⌊h.x⌋ : ℤ) : ℝ) - h.margin) hm
      (Or.inr ⟨lt_of_not_le hx, rfl, rfl⟩)
  · exact axis_bounds h.x h.margin ⌊h.x⌋ (((⌊h.x⌋ : ℤ) : ℝ) - h.margin) hm
      (Or.inr ⟨lt_of_not_le hx, rfl, rfl⟩)

/-- The `axis_bounds` facts instantiated at the y axis of `bbox`. -/
lemma bbox_y_facts (h : MetrixHandler) (hm : 0 ≤ h.margin) :
    h.bbox.y0 ≤ h.y ∧ h.y ≤ h.bbox.y0 + h.bbox.y ∧
    2 * h.margin ≤ h.bbox.y ∧
    h.bbox.y0 ≤ min 0 h.y - h.margin ∧
    max 0 h.y + h.margin ≤ h.bbox.y0 + h.bbox.y ∧
    0 ≤ |h.bbox.y0| ∧ |h.bbox.y0| ≤ h.bbox.y ∧
    0 ≤ |h.bbox.y0| + h.y ∧ |h.bbox.y0| + h.y ≤ h.bbox.y ∧
    0 ≤ |h.bbox.y0| + h.y / 2 ∧ |h.bbox.y0| + h.y / 2 ≤ h.bbox.y := by
  unfold MetrixHandler.bbox
  split_ifs with hx hy hy
  · exact axis_bounds h.y h.margin ⌈h.y⌉ (-h.margin) hm (Or.inl ⟨hy, rfl, rfl⟩)
  · exact axis_bounds h.y h.margin ⌊h.y⌋ (((⌊h.y⌋ : ℤ) : ℝ) - h.margin) hm
      (Or.inr ⟨lt_of_not_le hy, rfl, rfl⟩)
  · exact axis_bounds h.y h.margin ⌈h.y⌉ (-h.margin) hm (Or.inl ⟨hy, rfl, rfl⟩)
  · exact axis_bounds h.y h.margin ⌊h.y⌋ (((⌊h.y⌋ : ℤ) : ℝ) - h.margin) hm
      (Or.inr ⟨lt_of_not_le hy, rfl, rfl⟩)

/-- The formula conjuncts of `bboxClaim`, proved directly from the
branch structure of `bbox`. -/
lemma bbox_formulas (h : MetrixHandler) :
    (0 ≤ h.x → h.bbox.x0 = -h.margin ∧ h.bbox.x = |((⌈h.x⌉ : ℤ) : ℝ)| + 2 * h.margin) ∧
    (h.x < 0 → h.bbox.x0 = ((⌊h.x⌋ : ℤ) : ℝ) - h.margin ∧
      h.bbox.x = |((⌊h.x⌋ : ℤ) : ℝ)| + 2 * h.margin) ∧
    (0 ≤ h.y → h.bbox.y0 = -h.margin ∧ h.bbox.y = |((⌈h.y⌉ : ℤ) : ℝ)| + 2 * h.margin) ∧
    (h.y < 0 → h.bbox.y0 = ((⌊h.y⌋ : ℤ) : ℝ) - h.margin ∧
      h.bbox.y = |((⌊h.y⌋ : ℤ) : ℝ)| + 2 * h.margin) := by
  unfold MetrixHandler.bbox
  split_ifs with hx hy hy
  · exact ⟨fun h2 => ⟨rfl, rfl⟩, fun h2 => absurd h2 (not_lt.mpr hx),
      fun h2 => ⟨rfl, rfl⟩, fun h2 => absurd h2 (not_lt.mpr hy)⟩
  · exact ⟨fun h2 => ⟨rfl, rfl⟩, fun h2 => absurd h2 (not_lt.mpr hx),
      fun h2 => absurd h2 hy, fun h2 => ⟨rfl, rfl⟩⟩
  · exact ⟨fun h2 => absurd h2 hx, fun h2 => ⟨rfl, rfl⟩,
      fun h2 => ⟨rfl, rfl⟩, fun h2 => absurd h2 (not_lt.mpr hy)⟩
  · exact ⟨fun h2 => absurd h2 hx, fun h2 => ⟨rfl, rfl⟩,
      fun h2 => absurd h2 hy, fun h2 => ⟨rfl, rfl⟩⟩

/-- C1: for every handler with `length ≥ 0` and `margin ≥ 0`, the
bounding box is computed per axis by the far/near-edge formulas, its
extents are `|far| + 2*margin ≥ 2*margin`, it spans from `margin` before
the tail to `margin` beyond the tip on each axis, and the tip offset
`(length*cos, length*sin)` lies within `[x0, x0+width] × [y0, y0+height]`. -/
theorem bbox_spec_holds (h : MetrixHandler) (_hl : 0 ≤ h.length) (hm : 0 ≤ h.margin) :
    bboxClaim h := by
  obtain ⟨f1, f2, f3, f4⟩ := bbox_formulas h
  obtain ⟨x1, x2, x3, x4, x5, _, _, _, _, _, _⟩ := bbox_x_facts h hm
  obtain ⟨y1, y2, y3, y4, y5, _, _, _, _, _, _⟩ := bbox_y_facts h hm
  exact ⟨rfl, rfl, f1, f2, f3, f4, x3, y3, x4, x5, y4, y5, x1, x2, y1, y2⟩

/-- Witness for C1 at the concrete handler `(length 1, angle 0, margin 2)`. -/
theorem bbox_spec_holds_witness :
    0 ≤ (MetrixHandler.mk 1 0 2).length ∧ 0 ≤ (MetrixHandler.mk 1 0 2).margin ∧
    bboxClaim (MetrixHandler.mk 1 0 2) :=
  ⟨by norm_num, by norm_num,
    bbox_spec_holds (MetrixHandler.mk 1 0 2) (by norm_num) (by norm_num)⟩

/-- C2 counterexample: the invalid anchor kind `"nose"` does not raise; the
source's `anchor` falls through to the tail branch, so the icon is built
with the tail anchor — the claimed descriptive error does not exist. -/
theorem anchor_nose_defaults_to_tail :
    (MetrixHandler.mk 1 0 2).anchor "nose" = (MetrixHandler.mk 1 0 2).anchor "tail" := rfl

/-- C2 amended: any anchor kind other than `"head"` and `"mid"` — valid
`"tail"` and invalid strings alike — silently yields the tail anchor
`(abs x0, abs y0)`; no error is raised. -/
theorem anchor_invalid_silently_tail (h : MetrixHandler) (a : String)
    (h1 : a ≠ "head") (h2 : a ≠ "mid") :
    h.anchor a = h.anchor "tail" := by
  unfold MetrixHandler.anchor
  rw [if_neg h1, if_neg h2]
  rfl

/-- Witness for the amended C2 at the concrete invalid kind `"nose"`. -/
theorem anchor_invalid_silently_tail_witness :
    ("nose" : String) ≠ "head" ∧ ("nose" : String) ≠ "mid" ∧
    (MetrixHandler.mk 2 0 3).anchor "nose" = (MetrixHandler.mk 2 0 3).anchor "tail" :=
  ⟨by decide, by decide,
    anchor_invalid_silently_tail (MetrixHandler.mk 2 0 3) "nose" (by decide) (by decide)⟩

/-- C3: for every handler with `length ≥ 0` and `margin ≥ 0`, the tail
anchor is `(abs x0, abs y0)`, the head anchor is the tail anchor offset
by `(x, y)`, and the mid anchor is the tail anchor offset by
`(x/2, y/2)`, the arithmetic midpoint of tail and head. -/
theorem anchor_algebra (h : MetrixHandler) (_hl : 0 ≤ h.length) (_hm : 0 ≤ h.margin) :
    anchorClaim h := by
  have t1 : h.anchor "tail" = (|h.bbox.x0|, |h.bbox.y0|) := rfl
  have t2 : h.anchor "head" = (|h.bbox.x0| + h.x, |h.bbox.y0| + h.y) := rfl
  have t3 : h.anchor "mid" = (|h.bbox.x0| + h.x / 2, |h.bbox.y0| + h.y / 2) := rfl
  refine ⟨t1, ?_, ?_, ?_, ?_⟩
  · rw [t2, t1]
  · rw [t3, t1]
  · rw [t3, t2, t1]
    dsimp only
    ring
  · rw [t3, t2, t1]
    dsimp only
    ring

/-- Witness for C3 at the concrete handler `(length 1, angle 0, margin 2)`. -/
theorem anchor_algebra_witness :
    0 ≤ (MetrixHandler.mk 1 0 2).length ∧ 0 ≤ (MetrixHandler.mk 1 0 2).margin ∧
    anchorClaim (MetrixHandler.mk 1 0 2) :=
  ⟨by norm_num, by norm_num,
    anchor_algebra (MetrixHandler.mk 1 0 2) (by norm_num) (by norm_num)⟩

/-- C4: for every handler with `length ≥ 0` and `margin ≥ 0` and every
valid anchor kind, the anchor point lies within `[0, width] × [0, height]`
of the same handler's bounding box. -/
theorem anchor_in_bbox (h : MetrixHandler) (_hl : 0 ≤ h.length) (hm : 0 ≤ h.margin)
    (a : String) (ha : a = "tail" ∨ a = "mid" ∨ a = "head") :
    anchorInBox h a := by
  obtain ⟨_, _, _, _, _, x6, x7, x8, x9, x10, x11⟩ := bbox_x_facts h hm
  obtain ⟨_, _, _, _, _, y6, y7, y8, y9, y10, y11⟩ := bbox_y_facts h hm
  rcases ha with rfl | rfl | rfl
  · exact ⟨x6, x7, y6, y7⟩
  · exact ⟨x10, x11, y10, y11⟩
  · exact ⟨x8, x9, y8, y9⟩

/-- Witness for C4 at the handler `(length 5, angle 0, margin 3)` with
anchor kind `"mid"`. -/
theorem anchor_in_bbox_witness :
    0 ≤ (MetrixHandler.mk 5 0 3).length ∧ 0 ≤ (MetrixHandler.mk 5 0 3).margin ∧
    anchorInBox (MetrixHandler.mk 5 0 3) "mid" :=
  ⟨by norm_num, by norm_num,
    anchor_in_bbox (MetrixHandler.mk 5 0 3) (by norm_num) (by norm_num) "mid"
      (Or.inr (Or.inl rfl))⟩

/-- C10: the resolver's `rotate` preserves the squared Euclidean norm:
`(cos*px - sin*py)^2 + (sin*px + cos*py)^2 = px^2 + py^2`, so rotating
the arrow template never enlarges or shrinks it. -/
theorem rotate_preserves_norm (h : MetrixHandler) (px py : ℝ) :
    (h.rotate px py).1 ^ 2 + (h.rotate px py).2 ^ 2 = px ^ 2 + py ^ 2 := by
  have hcs := Real.sin_sq_add_cos_sq h.angle
  simp only [MetrixHandler.rotate, MetrixHandler.cos, MetrixHandler.sin]
  linear_combination (px ^ 2 + py ^ 2) * hcs

/-- C5: the seven coordinate pairs written into the path commands are
exactly the rotate operator applied individually to the seven template
deltas, in order — per relative delta, not per cumulative absolute
point — with the shaft delta clamped by `max(length - head.length, 0)`. -/
theorem path_deltas_rotated_individually (length angle : ℝ) (head : VectorIconHead)
    (body : VectorIconBody) (color : String) (bw : ℝ) (bc : Option String)
    (a : String) (pa : Option (ℤ × ℤ)) (cn : String) :
    (buildIcon length angle head body color bw bc a pa cn).path =
      (templateDeltas length head body).map
        (fun p => (iconHandler length angle head body).rotate p.1 p.2) := rfl

/-- C6: the group carries no transform exactly when `head.length <
length`, otherwise it carries the uniform scale `length / head.length`;
in particular head length 20 with vector length 10 yields scale `0.5`. -/
theorem group_transform_branch (length angle : ℝ) (head : VectorIconHead)
    (body : VectorIconBody) (color : String) (bw : ℝ) (bc : Option String)
    (a : String) (pa : Option (ℤ × ℤ)) (cn : String) :
    (head.length < length →
      (buildIcon length angle head body color bw bc a pa cn).transform =
        SvgTransform.identity) ∧
    (length ≤ head.length →
      (buildIcon length angle head body color bw bc a pa cn).transform =
        SvgTransform.scale (length / head.length)) ∧
    (buildIcon 10 0 (VectorIconHead.mk 8 20) DEFAULT_BODY "black" 0 none "tail"
      none "empty").transform = SvgTransform.scale (1 / 2) := by
  refine ⟨fun hb => ?_, fun hb => ?_, ?_⟩
  · show groupTransform length head = SvgTransform.identity
    unfold groupTransform
    rw [if_pos hb]
  · show groupTransform length head = SvgTransform.scale (length / head.length)
    unfold groupTransform
    rw [if_neg (not_lt.mpr hb)]
  · show groupTransform 10 (VectorIconHead.mk 8 20) = SvgTransform.scale (1 / 2)
    unfold groupTransform
    rw [if_neg (by show ¬((20 : ℝ) < 10); norm_num)]
    show SvgTransform.scale ((10 : ℝ) / 20) = SvgTransform.scale (1 / 2)
    norm_num

/-- Witness for C6 at the concrete normal case head length 10, vector
length 100: no transform is applied. -/
theorem group_transform_branch_witness :
    (VectorIconHead.mk 8 10).length < 100 ∧
    (buildIcon 100 0 (VectorIconHead.mk 8 10) DEFAULT_BODY "black" 0 none "tail"
      none "empty").transform = SvgTransform.identity :=
  ⟨by show (10 : ℝ) < 100; norm_num,
    (group_transform_branch 100 0 (VectorIconHead.mk 8 10) DEFAULT_BODY "black" 0 none
      "tail" none "empty").1 (by show (10 : ℝ) < 100; norm_num)⟩

/-- C8: building from the component pair `(a, b)` is exactly building
directly with `length = hypot(b, a)` and `angle = atan2(b, a)` and the
same style parameters: markup model, icon size and icon anchor agree. -/
theorem from_comp_roundtrip (a b : ℝ) (head : VectorIconHead) (body : VectorIconBody)
    (color : String) (bw : ℝ) (bc : Option String) (anch : String)
    (pa : Option (ℤ × ℤ)) (cn : String) :
    from_comp (a, b) head body color bw bc anch pa cn =
      buildIcon (hypot b a) (atan2 b a) head body color bw bc anch pa cn := rfl

/-- C9: length 100, angle `π/2`, default head and body give margin 10,
internal angle 0, tip offset `(100, 0)`, bounding box
`(-10, -10, 120, 20)`, icon size `(120, 20)` and tail anchor `(10, 10)`. -/
theorem scenario_length100 :
    iconHandler 100 (Real.pi / 2) DEFAULT_HEAD DEFAULT_BODY = MetrixHandler.mk 100 0 10 ∧
    (MetrixHandler.mk 100 0 10).x = 100 ∧
    (MetrixHandler.mk 100 0 10).y = 0 ∧
    (MetrixHandler.mk 100 0 10).bbox = BBox.mk (-10) (-10) 120 20 ∧
    (buildIcon 100 (Real.pi / 2) DEFAULT_HEAD DEFAULT_BODY "black" 0 none "tail"
      none "empty").iconSize = (120, 20) ∧
    (buildIcon 100 (Real.pi / 2) DEFAULT_HEAD DEFAULT_BODY "black" 0 none "tail"
      none "empty").iconAnchor = (10, 10) := by
  have hx : (MetrixHandler.mk 100 0 10).x = 100 := by
    show (100 : ℝ) * Real.cos 0 = 100
    rw [Real.cos_zero, mul_one]
  have hy : (MetrixHandler.mk 100 0 10).y = 0 := by
    show (100 : ℝ) * Real.sin 0 = 0
    rw [Real.sin_zero, mul_zero]
  have hH : iconHandler 100 (Real.pi / 2) DEFAULT_HEAD DEFAULT_BODY =
      MetrixHandler.mk 100 0 10 := by
    have ha : Real.pi / 2 - Real.pi / 2 = 0 := sub_self _
    have hm2 : max DEFAULT_HEAD.length (max DEFAULT_HEAD.width DEFAULT_BODY.width) =
        (10 : ℝ) := by
      show max (10 : ℝ) (max 8 2) = 10
      rw [max_eq_left (by norm_num : (2 : ℝ) ≤ 8), max_eq_left (by norm_num : (8 : ℝ) ≤ 10)]
    unfold iconHandler
    rw [ha, hm2]
  have hb : (MetrixHandler.mk 100 0 10).bbox = BBox.mk (-10) (-10) 120 20 := by
    unfold MetrixHandler.bbox
    rw [hx, hy]
    rw [if_pos (by norm_num : (0 : ℝ) ≤ 100), if_pos (le_refl (0 : ℝ))]
    have hm : (MetrixHandler.mk 100 0 10).margin = 10 := rfl
    rw [hm]
    have hc1 : ((⌈(100 : ℝ)⌉ : ℤ) : ℝ) = 100 := by norm_num
    have hc2 : ((⌈(0 : ℝ)⌉ : ℤ) : ℝ) = 0 := by norm_num
    rw [hc1, hc2, abs_of_nonneg (by norm_num : (0 : ℝ) ≤ 100), abs_of_nonneg (le_refl (0 : ℝ))]
    simp only [BBox.mk.injEq]
    norm_num
  refine ⟨hH, hx, hy, hb, ?_, ?_⟩
  · show (iconHandler 100 (Real.pi / 2) DEFAULT_HEAD DEFAULT_BODY).size = (120, 20)
    rw [hH]
    unfold MetrixHandler.size
    rw [hb]
    show (|(120 : ℝ)|, |(20 : ℝ)|) = ((120 : ℝ), (20 : ℝ))
    rw [abs_of_nonneg (by norm_num : (0 : ℝ) ≤ 120), abs_of_nonneg (by norm_num : (0 : ℝ) ≤ 20)]
  · show (iconHandler 100 (Real.pi / 2) DEFAULT_HEAD DEFAULT_BODY).anchor "tail" = (10, 10)
    rw [hH]
    have ht : (MetrixHandler.mk 100 0 10).anchor "tail" =
        (|(MetrixHandler.mk 100 0 10).bbox.x0|, |(MetrixHandler.mk 100 0 10).bbox.y0|) := rfl
    rw [ht, hb]
    show (|(-10 : ℝ)|, |(-10 : ℝ)|) = ((10 : ℝ), (10 : ℝ))
    rw [abs_of_nonpos (by norm_num : (-10 : ℝ) ≤ 0)]
    norm_num

end FoliumVectorIcon
